import Mathlib

/-!
Shallow embedding of the client-side rendering and state logic of
`src/app.py` (Geo-Guía Transporte Trujillo, a Streamlit front end).

Modelling conventions:
* JSON numbers (Python floats/ints) are modelled as `ℚ`; JSON strings as
  `String`; coordinate pairs `[lng, lat]` as `ℚ × ℚ`.
* A dictionary field is `Option α`: `none` models the key being absent.
  Where the code reads a field with `dict.get(k)` a JSON `null` value is
  indistinguishable from an absent key (both give Python `None`), so the
  `Option` model coincides with what the code observes; for the few
  fields read with direct indexing (`route['origin_lng']` etc.) `none`
  models an absent key, which raises `KeyError`.
* Python truthiness on optional values is modelled by the `truthy*`
  helpers below (`None`, `0.0`, `""` and `[]` are falsy).
* HTTP calls are modelled by passing the outcome of the call (status and
  parsed JSON body, or a raised network exception) as an argument.
* Streamlit `st.error` messages are collected in `List String` results;
  an uncaught exception in a render helper is the `.error` constructor of
  its result type.
-/

/-- Outcome of an HTTP request made with `requests`: either a response
with a status code and (already JSON-parsed) body, or a raised exception
carrying its message. -/
inductive HttpResult (α : Type) where
  | resp (status : Nat) (body : α)
  | exn (msg : String)
deriving DecidableEq, Repr

/-- Python truthiness of an optional number: `None` and `0.0` are falsy
(`if route.get('destination_lat')` in `app.py` line 150). -/
def truthyNum (o : Option ℚ) : Bool :=
  match o with
  | some v => if v = 0 then false else true
  | none => false

/-- Python truthiness of an optional list: `None` and `[]` are falsy. -/
def truthyList {α : Type} (o : Option (List α)) : Bool :=
  match o with
  | some l => !l.isEmpty
  | none => false

/-- The `route` object of a route-computation response (`app.py` line
130): every key may be absent. -/
structure Route where
  origin_lat : Option ℚ := none
  origin_lng : Option ℚ := none
  boarding_lat : Option ℚ := none
  boarding_lng : Option ℚ := none
  boarding_stop_name : Option String := none
  destination_lat : Option ℚ := none
  destination_lng : Option ℚ := none
  destination_name : Option String := none
  walking_route_coordinates : Option (List (ℚ × ℚ)) := none
  bus_route_coordinates : Option (List (ℚ × ℚ)) := none
  walking_distance_km : Option ℚ := none
  walking_time_min : Option ℚ := none
  estimated_time_min : Option ℚ := none
  estimated_fare : Option String := none
  walking_instructions : Option (List String) := none
  confidence_score : Option ℚ := none
deriving DecidableEq, Repr

/-- A route-computation response (`RouteResult`); only the keys the app
reads are modelled. -/
structure RouteData where
  route : Option Route := none
  request_id : Option String := none
deriving DecidableEq, Repr

/-- Python truthiness of the response dictionary restricted to the
modelled keys: a dict is falsy iff it is empty. -/
def RouteData.truthy (rd : RouteData) : Bool :=
  rd.route.isSome || rd.request_id.isSome

/-- One entry of the `points_data` list fed to the pydeck
`ScatterplotLayer` (`app.py` lines 136-155): a `name` tag, `[lng, lat]`
coordinates and an RGBA color. -/
structure PointDatum where
  name : String
  coordinates : ℚ × ℚ
  color : List Nat
deriving DecidableEq, Repr

/-- One entry of the data list fed to a pydeck `PathLayer`. -/
structure PathDatum where
  path : List (ℚ × ℚ)
  color : List Nat
  name : String
deriving DecidableEq, Repr

/-- A pydeck layer as configured by `display_route_map`: a
`ScatterplotLayer` with its point data and radius, or a `PathLayer` with
its path data and stroke width. `pickable` is recorded as well. -/
inductive Layer where
  | scatter (data : List PointDatum) (radius : Nat) (pickable : Bool)
  | path (data : List PathDatum) (width : Nat) (pickable : Bool)
deriving DecidableEq, Repr

/-- Whether a layer is a `PathLayer`. -/
def Layer.isPath : Layer → Bool
  | .path _ _ _ => true
  | .scatter _ _ _ => false

/-- The pydeck `ViewState` built at `app.py` lines 208-213. -/
structure ViewState where
  latitude : ℚ
  longitude : ℚ
  zoom : Nat
  pitch : Nat
deriving DecidableEq, Repr

/-- Result of running a render helper: it may return early rendering
nothing (`skipped`), render a value, or raise an uncaught exception
(`error`, a `KeyError` from direct dictionary indexing). -/
inductive RenderResult where
  | skipped
  | rendered (layers : List Layer) (view : ViewState)
  | error
deriving DecidableEq, Repr

/-- The `points_data` list built by `display_route_map` (`app.py` lines
133-155).  Origin and boarding coordinates are read with direct
indexing (`route['origin_lng']` …), so an absent key raises `KeyError`
(modelled as `none`); `boarding_stop_name` is read with a default.  The
destination point is appended only when both `destination_lat` and
`destination_lng` are truthy, and its tag reads `route['destination_name']`
by direct indexing. -/
def route_points_data (route : Route) : Option (List PointDatum) :=
  match route.origin_lng, route.origin_lat with
  | some olng, some olat =>
    match route.boarding_lng, route.boarding_lat with
    | some blng, some blat =>
      let base : List PointDatum :=
        [⟨"Tu ubicación", (olng, olat), [255, 0, 0, 160]⟩,
         ⟨"Parada: " ++ route.boarding_stop_name.getD "Parada recomendada",
          (blng, blat), [0, 0, 255, 160]⟩]
      if truthyNum route.destination_lat && truthyNum route.destination_lng then
        match route.destination_name, route.destination_lng, route.destination_lat with
        | some dname, some dlng, some dlat =>
          some (base ++ [⟨"Destino: " ++ dname, (dlng, dlat), [0, 255, 0, 160]⟩])
        | _, _, _ => none
      else
        some base
    | _, _ => none
  | _, _ => none

/-- The walking-path layer list (`app.py` lines 168-184): a single
`PathLayer` of width 8 when `walking_route_coordinates` is truthy,
nothing otherwise. -/
def walking_line_layers (route : Route) : List Layer :=
  if truthyList route.walking_route_coordinates then
    [Layer.path [⟨route.walking_route_coordinates.getD [], [255, 165, 0, 160],
                  "Ruta a pie hacia la parada"⟩] 8 true]
  else []

/-- The bus-path layer list (`app.py` lines 186-202): a single
`PathLayer` of width 6 when `bus_route_coordinates` is truthy, nothing
otherwise. -/
def bus_line_layers (route : Route) : List Layer :=
  if truthyList route.bus_route_coordinates then
    [Layer.path [⟨route.bus_route_coordinates.getD [], [75, 0, 130, 160],
                  "Ruta del transporte"⟩] 6 true]
  else []

/-- `TransportApp.display_route_map` (`app.py` lines 125-229).  Returns
early when the response is falsy or lacks the `route` key; otherwise
builds the point data (which can raise `KeyError`), the conditional path
layers, the final layer list `line_layers + [points_layer]`, and the
view state anchored at the origin with zoom 14 and pitch 0. -/
def display_route_map (route_data : Option RouteData) : RenderResult :=
  match route_data with
  | none => .skipped
  | some rd =>
    if !rd.truthy then .skipped
    else
      match rd.route with
      | none => .skipped
      | some route =>
        match route_points_data route, route.origin_lat, route.origin_lng with
        | some pts, some olat, some olng =>
          .rendered
            (walking_line_layers route ++ bus_line_layers route ++
              [Layer.scatter pts 200 true])
            ⟨olat, olng, 14, 0⟩
        | _, _, _ => .error

/-- How the step-by-step walking instructions are produced (`app.py`
lines 303-309): either the enumerated `walking_instructions` list, or
the three default lines computed from the boarding stop name, walking
distance and walking time (string formatting of the numbers is UI
presentation and is not modelled). -/
inductive WalkSteps where
  | provided (instructions : List String)
  | defaults (stop : String) (dist : ℚ) (timeMin : ℚ)
deriving DecidableEq, Repr

/-- The metric and instruction values computed by
`display_route_instructions` (`app.py` lines 274-313), each read with
`route.get(..., default)`. -/
structure Instr where
  walking_distance_km : ℚ
  walking_time_min : ℚ
  estimated_time_min : ℚ
  estimated_fare : String
  steps : WalkSteps
  confidence_pct : ℚ
deriving DecidableEq, Repr

/-- Result of `display_route_instructions`: it either returns early or
renders; the function body contains no direct dictionary indexing, so it
has no failure constructor. -/
inductive InstrResult where
  | skipped
  | rendered (i : Instr)
deriving DecidableEq, Repr

/-- `TransportApp.display_route_instructions` (`app.py` lines 264-313).
Returns early when the response is falsy or lacks `route`; otherwise
every field is read with a default (`0`, `'0.00'`,
`'Parada recomendada'`), the provided instructions are used only when
truthy (present and non-empty), and the confidence percentage is
`confidence_score * 100` with default 0. -/
def display_route_instructions (route_data : Option RouteData) : InstrResult :=
  match route_data with
  | none => .skipped
  | some rd =>
    if !rd.truthy then .skipped
    else
      match rd.route with
      | none => .skipped
      | some route =>
        .rendered
          { walking_distance_km := route.walking_distance_km.getD 0
            walking_time_min := route.walking_time_min.getD 0
            estimated_time_min := route.estimated_time_min.getD 0
            estimated_fare := route.estimated_fare.getD "0.00"
            steps :=
              if truthyList route.walking_instructions then
                .provided (route.walking_instructions.getD [])
              else
                .defaults (route.boarding_stop_name.getD "Parada recomendada")
                  (route.walking_distance_km.getD 0)
                  (route.walking_time_min.getD 0)
            confidence_pct := route.confidence_score.getD 0 * 100 }

/-- A destination returned by the `/search` endpoint (`app.py` lines
406-414, 422-432): `id` and `name` are read with direct indexing by the
callers, `address`, `latitude` and `longitude` with `.get`. -/
structure Destination where
  id : Nat
  name : String
  address : Option String := none
  latitude : Option ℚ := none
  longitude : Option ℚ := none
deriving DecidableEq, Repr

/-- The session-scoped state of the app (`app.py` lines 639-644):
`selected_destination`, `route_data` and `show_results`. -/
structure SessionState where
  selected_destination : Option Destination
  route_data : Option RouteData
  show_results : Bool
deriving DecidableEq, Repr

/-- The session-state initialisation (`app.py` lines 639-644): no
destination, no route, results hidden. -/
def initialSessionState : SessionState :=
  { selected_destination := none, route_data := none, show_results := false }

/-- Python `str.strip` on a character list: drop whitespace from both
ends. -/
def pyStripList (l : List Char) : List Char :=
  ((l.dropWhile Char.isWhitespace).reverse.dropWhile Char.isWhitespace).reverse

/-- Python `str.strip`. -/
def pyStrip (s : String) : String :=
  ⟨pyStripList s.data⟩

/-- Outcome of `search_destinations`: the returned list, whether the
`/search` endpoint was actually called, and any `st.error` messages. -/
structure SearchOutcome where
  results : List Destination
  called : Bool
  errors : List String
deriving DecidableEq, Repr

/-- `TransportApp.search_destinations` (`app.py` lines 85-97).  Returns
`[]` without issuing the request when the query is `None`, empty, or its
stripped length is below 3; otherwise issues `GET /search` and returns
the parsed body on status 200, `[]` on any other status, and `[]` with
an error message when the request raises. -/
def search_destinations (svc : HttpResult (List Destination))
    (query : Option String) : SearchOutcome :=
  match query with
  | none => ⟨[], false, []⟩
  | some q =>
    if q = "" || (pyStrip q).length < 3 then ⟨[], false, []⟩
    else
      match svc with
      | .resp status body =>
        if status = 200 then ⟨body, true, []⟩ else ⟨[], true, []⟩
      | .exn m => ⟨[], true, ["Error en búsqueda: " ++ m]⟩

/-- `TransportApp.calculate_route` (`app.py` lines 99-123).  Returns the
parsed body on status 200; on any other status shows a server error and
returns `None`; on a raised exception shows an error and returns
`None`. -/
def calculate_route (svc : HttpResult RouteData) :
    Option RouteData × List String :=
  match svc with
  | .resp status body =>
    if status = 200 then (some body, [])
    else (none, ["Error del servidor: " ++ toString status])
  | .exn m => (none, ["Error al calcular ruta: " ++ m])

/-- The handler of the "Calcular Ruta Óptima" button (`app.py` lines
422-439).  The button exists only when a destination is selected; the
handler calls `calculate_route` and, only when the returned response is
truthy, stores it in `route_data` and sets `show_results`; otherwise the
state is left unchanged and an error message is shown. -/
def main_calculate_route_click (svc : HttpResult RouteData)
    (s : SessionState) : SessionState × List String :=
  match s.selected_destination with
  | none => (s, [])
  | some _ =>
    let r := calculate_route svc
    match r.1 with
    | some rd =>
      if rd.truthy then
        ({ s with route_data := some rd, show_results := true }, r.2)
      else
        (s, r.2 ++ ["No se pudo calcular la ruta. Intenta nuevamente."])
    | none => (s, r.2 ++ ["No se pudo calcular la ruta. Intenta nuevamente."])

/-- The handler of a "Seleccionar" button on a search result (`app.py`
lines 413-415): store the chosen destination and rerun; no other state
key is touched. -/
def main_select_destination_click (d : Destination) (s : SessionState) :
    SessionState :=
  { s with selected_destination := some d }

/-- The handler of the "Calcular Nueva Ruta" button (`app.py` lines
478-482): hide results, clear the route and clear the selection. -/
def main_reset_click (s : SessionState) : SessionState :=
  { s with show_results := false, route_data := none,
           selected_destination := none }

/-- The value of one base64 character in the standard alphabet. -/
def b64Val (c : Char) : Option Nat :=
  if 'A' ≤ c ∧ c ≤ 'Z' then some (c.toNat - 65)
  else if 'a' ≤ c ∧ c ≤ 'z' then some (c.toNat - 97 + 26)
  else if '0' ≤ c ∧ c ≤ '9' then some (c.toNat - 48 + 52)
  else if c = '+' then some 62
  else if c = '/' then some 63
  else none

/-- Decode base64 four-character groups into bytes; `=` padding is
accepted only in the final group. -/
def b64DecodeGroups : List Char → Option (List Nat)
  | [] => some []
  | a :: b :: c :: d :: rest =>
    match b64Val a, b64Val b with
    | some va, some vb =>
      if c = '=' then
        if d = '=' ∧ rest = [] then some [va * 4 + vb / 16] else none
      else
        match b64Val c with
        | some vc =>
          if d = '=' then
            if rest = [] then
              some [va * 4 + vb / 16, vb % 16 * 16 + vc / 4]
            else none
          else
            match b64Val d with
            | some vd =>
              match b64DecodeGroups rest with
              | some bytes =>
                some ([va * 4 + vb / 16, vb % 16 * 16 + vc / 4,
                       vc % 4 * 64 + vd] ++ bytes)
              | none => none
            | none => none
        | none => none
    | _, _ => none
  | _ => none

/-- Model of `base64.b64decode` on well-formed input: characters outside
the alphabet are discarded first (CPython behaviour with
`validate=False`), then the length must be a multiple of 4 and the
groups must decode; `none` models the raised `binascii.Error`. -/
def b64decode (s : String) : Option (List Nat) :=
  let cs := s.data.filter (fun c => (b64Val c).isSome || c = '=')
  if cs.length % 4 = 0 then b64DecodeGroups cs else none

/-- The body of a `/generate-report` response (`app.py` lines 323-328):
`success` read with `.get`, `pdf_base64` and `filename` with direct
indexing. -/
structure ReportResponse where
  success : Option Bool := none
  pdf_base64 : Option String := none
  filename : Option String := none
deriving DecidableEq, Repr

/-- `TransportApp.download_report` (`app.py` lines 315-332).  The whole
body is wrapped in `try/except`, so every failure path — non-200
status, falsy or absent `success`, missing `pdf_base64` or `filename`
key (`KeyError`), malformed base64 (`binascii.Error`), network
exception — returns `(None, None)`; only a 200 response with
`success` truthy, a decodable payload and a `filename` returns the
decoded bytes and the filename. -/
def download_report (svc : HttpResult ReportResponse) :
    Option (List Nat) × Option String :=
  match svc with
  | .exn _ => (none, none)
  | .resp status body =>
    if status = 200 then
      if body.success.getD false then
        match body.pdf_base64 with
        | none => (none, none)
        | some b64 =>
          match b64decode b64 with
          | none => (none, none)
          | some bytes =>
            match body.filename with
            | none => (none, none)
            | some fn => (some bytes, some fn)
      else (none, none)
    else (none, none)

/-! ## Helper lemmas and concrete example inputs -/

lemma truthyNum_eq_true {o : Option ℚ} :
    truthyNum o = true ↔ ∃ v, o = some v ∧ v ≠ 0 := by
  cases o with
  | none => simp [truthyNum]
  | some v =>
    by_cases h : v = 0 <;> simp [truthyNum, h]

lemma length_dropWhile_le (p : Char → Bool) (l : List Char) :
    (l.dropWhile p).length ≤ l.length := by
  induction l with
  | nil => simp [List.dropWhile]
  | cons a t ih =>
    rw [List.dropWhile]
    split
    · exact Nat.le_succ_of_le ih
    · simp

lemma pyStrip_length_le (s : String) : (pyStrip s).length ≤ s.length := by
  show (pyStripList s.data).length ≤ s.data.length
  unfold pyStripList
  calc (((s.data.dropWhile Char.isWhitespace).reverse.dropWhile
          Char.isWhitespace).reverse).length
      = ((s.data.dropWhile Char.isWhitespace).reverse.dropWhile
          Char.isWhitespace).length := List.length_reverse _
    _ ≤ (s.data.dropWhile Char.isWhitespace).reverse.length :=
        length_dropWhile_le _ _
    _ = (s.data.dropWhile Char.isWhitespace).length := List.length_reverse _
    _ ≤ s.data.length := length_dropWhile_le _ _

lemma display_route_map_eq_rendered (rd : RouteData) (route : Route)
    (pts : List PointDatum) (olat olng : ℚ)
    (hr : rd.route = some route)
    (hlat : route.origin_lat = some olat)
    (hlng : route.origin_lng = some olng)
    (hpts : route_points_data route = some pts) :
    display_route_map (some rd) =
      .rendered
        (walking_line_layers route ++ bus_line_layers route ++
          [Layer.scatter pts 200 true])
        ⟨olat, olng, 14, 0⟩ := by
  have htr : rd.truthy = true := by
    simp [RouteData.truthy, hr]
  simp [display_route_map, htr, hr, hpts, hlat, hlng]

lemma route_points_data_of_truthy (route : Route)
    (olat olng blat blng dlat dlng : ℚ) (dn : String)
    (h1 : route.origin_lat = some olat) (h2 : route.origin_lng = some olng)
    (h3 : route.boarding_lat = some blat) (h4 : route.boarding_lng = some blng)
    (hdn : route.destination_name = some dn)
    (hdlat : route.destination_lat = some dlat)
    (hdlng : route.destination_lng = some dlng)
    (hz1 : dlat ≠ 0) (hz2 : dlng ≠ 0) :
    route_points_data route =
      some [⟨"Tu ubicación", (olng, olat), [255, 0, 0, 160]⟩,
            ⟨"Parada: " ++ route.boarding_stop_name.getD "Parada recomendada",
             (blng, blat), [0, 0, 255, 160]⟩,
            ⟨"Destino: " ++ dn, (dlng, dlat), [0, 255, 0, 160]⟩] := by
  simp [route_points_data, h1, h2, h3, h4, hdn, hdlat, hdlng, truthyNum,
        hz1, hz2]

lemma route_points_data_of_not_truthy (route : Route)
    (olat olng blat blng : ℚ)
    (h1 : route.origin_lat = some olat) (h2 : route.origin_lng = some olng)
    (h3 : route.boarding_lat = some blat) (h4 : route.boarding_lng = some blng)
    (ht : (truthyNum route.destination_lat &&
           truthyNum route.destination_lng) = false) :
    route_points_data route =
      some [⟨"Tu ubicación", (olng, olat), [255, 0, 0, 160]⟩,
            ⟨"Parada: " ++ route.boarding_stop_name.getD "Parada recomendada",
             (blng, blat), [0, 0, 255, 160]⟩] := by
  simp [route_points_data, h1, h2, h3, h4, ht]

/-- A fully-populated example route used to instantiate the theorems. -/
def routeEx : Route :=
  { origin_lat := some (-8), origin_lng := some (-79),
    boarding_lat := some (-7), boarding_lng := some (-78),
    boarding_stop_name := some "Av. España",
    destination_lat := some (-6), destination_lng := some (-77),
    destination_name := some "Mall Aventura Plaza",
    walking_route_coordinates := some [((-79 : ℚ), (-8 : ℚ)), (-78, -7)],
    bus_route_coordinates := some [((-78 : ℚ), (-7 : ℚ)), (-77, -6)],
    walking_distance_km := some 1, walking_time_min := some 12,
    estimated_time_min := some 30, estimated_fare := some "1.50",
    walking_instructions := some ["Camina hacia el norte"],
    confidence_score := some (9 / 10) }

/-- An example route-computation response wrapping `routeEx`. -/
def rdEx : RouteData := { route := some routeEx, request_id := some "req-1" }

/-- `routeEx` with both coordinate lists present but empty. -/
def routeNoPaths : Route :=
  { routeEx with walking_route_coordinates := some ([] : List (ℚ × ℚ)),
                 bus_route_coordinates := some ([] : List (ℚ × ℚ)) }

/-- Response wrapping `routeNoPaths`. -/
def rdNoPaths : RouteData := { route := some routeNoPaths }

/-- An example search result. -/
def destEx : Destination :=
  { id := 1, name := "Mall Aventura Plaza",
    address := some "Av. América Oeste 750",
    latitude := some (-81 / 10), longitude := some (-7902 / 100) }

/-- A route with origin and boarding coordinates only — no destination
fields at all. -/
def routeStub : Route :=
  { origin_lat := some (-8), origin_lng := some (-79),
    boarding_lat := some (-7), boarding_lng := some (-78) }

/-- Response wrapping `routeStub`. -/
def rdStub : RouteData := { route := some routeStub }

/-- A route whose `destination_lat` key is present with the value `0.0`
(a falsy float), together with a present `destination_lng`. -/
def routeZeroDest : Route :=
  { origin_lat := some (-8), origin_lng := some (-79),
    boarding_lat := some (-7), boarding_lng := some (-78),
    destination_lat := some 0, destination_lng := some (-77),
    destination_name := some "Plaza de Armas" }

/-- Response wrapping `routeZeroDest`. -/
def rdZeroDest : RouteData := { route := some routeZeroDest }

/-! ## C1 -/

/-- Claim C1, corrected: the point layer of `display_route_map` contains
exactly 3 points — origin tagged "Tu ubicación", boarding stop tagged
with `boarding_stop_name` (or the default label), destination tagged
with `destination_name` — when both destination coordinates are present
with truthy (non-null, nonzero) values; when the pair is not truthy
(either coordinate absent, null or `0.0`), it contains exactly 2 points,
origin then boarding stop, with no `destination_name` required. -/
theorem C1_point_layer (rd : RouteData) (route : Route)
    (olat olng blat blng : ℚ)
    (hr : rd.route = some route)
    (h1 : route.origin_lat = some olat) (h2 : route.origin_lng = some olng)
    (h3 : route.boarding_lat = some blat) (h4 : route.boarding_lng = some blng) :
    (∀ (dn : String) (dlat dlng : ℚ), route.destination_name = some dn →
       route.destination_lat = some dlat →
       route.destination_lng = some dlng → dlat ≠ 0 → dlng ≠ 0 →
       display_route_map (some rd) =
         .rendered
           (walking_line_layers route ++ bus_line_layers route ++
             [Layer.scatter
               [⟨"Tu ubicación", (olng, olat), [255, 0, 0, 160]⟩,
                ⟨"Parada: " ++
                   route.boarding_stop_name.getD "Parada recomendada",
                 (blng, blat), [0, 0, 255, 160]⟩,
                ⟨"Destino: " ++ dn, (dlng, dlat), [0, 255, 0, 160]⟩]
               200 true])
           ⟨olat, olng, 14, 0⟩) ∧
    ((truthyNum route.destination_lat &&
        truthyNum route.destination_lng) = false →
       display_route_map (some rd) =
         .rendered
           (walking_line_layers route ++ bus_line_layers route ++
             [Layer.scatter
               [⟨"Tu ubicación", (olng, olat), [255, 0, 0, 160]⟩,
                ⟨"Parada: " ++
                   route.boarding_stop_name.getD "Parada recomendada",
                 (blng, blat), [0, 0, 255, 160]⟩]
               200 true])
           ⟨olat, olng, 14, 0⟩) := by
  constructor
  · intro dn dlat dlng hdn hdlat hdlng hz1 hz2
    exact display_route_map_eq_rendered rd route _ olat olng hr h1 h2
      (route_points_data_of_truthy route olat olng blat blng dlat dlng dn
        h1 h2 h3 h4 hdn hdlat hdlng hz1 hz2)
  · intro hb
    exact display_route_map_eq_rendered rd route _ olat olng hr h1 h2
      (route_points_data_of_not_truthy route olat olng blat blng
        h1 h2 h3 h4 hb)

/-- Witness for C1: both branches evaluated on concrete responses. -/
theorem C1_point_layer_witness :
    (display_route_map (some rdEx) =
      .rendered
        (walking_line_layers routeEx ++ bus_line_layers routeEx ++
          [Layer.scatter
            [⟨"Tu ubicación", (-79, -8), [255, 0, 0, 160]⟩,
             ⟨"Parada: " ++
                routeEx.boarding_stop_name.getD "Parada recomendada",
              (-78, -7), [0, 0, 255, 160]⟩,
             ⟨"Destino: " ++ "Mall Aventura Plaza", (-77, -6),
              [0, 255, 0, 160]⟩]
            200 true])
        ⟨-8, -79, 14, 0⟩) ∧
    (display_route_map (some rdStub) =
      .rendered
        (walking_line_layers routeStub ++ bus_line_layers routeStub ++
          [Layer.scatter
            [⟨"Tu ubicación", (-79, -8), [255, 0, 0, 160]⟩,
             ⟨"Parada: " ++
                routeStub.boarding_stop_name.getD "Parada recomendada",
              (-78, -7), [0, 0, 255, 160]⟩]
            200 true])
        ⟨-8, -79, 14, 0⟩) :=
  ⟨(C1_point_layer rdEx routeEx (-8) (-79) (-7) (-78)
      rfl rfl rfl rfl rfl).1 "Mall Aventura Plaza" (-6) (-77)
      rfl rfl rfl (by decide) (by decide),
   (C1_point_layer rdStub routeStub (-8) (-79) (-7) (-78)
      rfl rfl rfl rfl rfl).2 (by decide)⟩

/-- Counterexample to C1 as stated: `rdZeroDest` has both
`destination_lat` and `destination_lng` present, yet the point layer
contains only 2 points, because the code tests Python truthiness
(`app.py` line 150) and `destination_lat = 0.0` is falsy. -/
theorem C1_point_layer_counterexample :
    rdZeroDest.route = some routeZeroDest ∧
    routeZeroDest.destination_lat.isSome = true ∧
    routeZeroDest.destination_lng.isSome = true ∧
    display_route_map (some rdZeroDest) =
      .rendered
        [Layer.scatter
          [⟨"Tu ubicación", (-79, -8), [255, 0, 0, 160]⟩,
           ⟨"Parada: Parada recomendada", (-78, -7), [0, 0, 255, 160]⟩]
          200 true]
        ⟨-8, -79, 14, 0⟩ := by
  refine ⟨rfl, rfl, rfl, ?_⟩
  decide

/-! ## C2 -/

/-- A response whose `route` key is present but whose route object is
empty. -/
def emptyRouteData : RouteData := { route := some {} }

lemma route_points_data_isSome (route : Route) :
    (route_points_data route).isSome = true ↔
      (route.origin_lat.isSome = true ∧ route.origin_lng.isSome = true ∧
       route.boarding_lat.isSome = true ∧ route.boarding_lng.isSome = true ∧
       ((truthyNum route.destination_lat &&
           truthyNum route.destination_lng) = true →
         route.destination_name.isSome = true)) := by
  cases holng : route.origin_lng with
  | none => simp [route_points_data, holng]
  | some olng =>
    cases holat : route.origin_lat with
    | none => simp [route_points_data, holng, holat]
    | some olat =>
      cases hblng : route.boarding_lng with
      | none => simp [route_points_data, holng, holat, hblng]
      | some blng =>
        cases hblat : route.boarding_lat with
        | none => simp [route_points_data, holng, holat, hblng, hblat]
        | some blat =>
          cases hb : (truthyNum route.destination_lat &&
              truthyNum route.destination_lng) with
          | false =>
            simp [route_points_data, holng, holat, hblng, hblat, hb]
          | true =>
            have hb' := hb
            simp only [Bool.and_eq_true] at hb'
            obtain ⟨dlat, hdlat, hz1⟩ := truthyNum_eq_true.mp hb'.1
            obtain ⟨dlng, hdlng, hz2⟩ := truthyNum_eq_true.mp hb'.2
            cases hdn : route.destination_name with
            | none =>
              simp [route_points_data, holng, holat, hblng, hblat, hb,
                    hdlat, hdlng, hdn, truthyNum, hz1, hz2]
            | some dn =>
              simp [route_points_data, holng, holat, hblng, hblat, hb,
                    hdlat, hdlng, hdn, truthyNum, hz1, hz2]

lemma display_route_map_eq_error (rd : RouteData) (route : Route)
    (hr : rd.route = some route)
    (hpts : route_points_data route = none) :
    display_route_map (some rd) = .error := by
  have htr : rd.truthy = true := by
    simp [RouteData.truthy, hr]
  simp [display_route_map, htr, hr, hpts]

/-- Claim C2, corrected: `display_route_instructions` reads every field
with default substitution and completes (renders) on any response with
`route` present; `display_route_map`, however, reads the origin and
boarding coordinates and `destination_name` by direct indexing, so it
completes without error exactly when the origin and boarding coordinates
are present and `destination_name` is present whenever both destination
coordinates are truthy — and it raises (`KeyError`, the `.error`
result) whenever that condition fails. -/
theorem C2_default_substitution :
    (∀ (rd : RouteData) (route : Route), rd.route = some route →
       ∃ i, display_route_instructions (some rd) = .rendered i) ∧
    (∀ (rd : RouteData) (route : Route), rd.route = some route →
       ((∃ layers view, display_route_map (some rd) =
           .rendered layers view) ↔
         (route.origin_lat.isSome = true ∧
          route.origin_lng.isSome = true ∧
          route.boarding_lat.isSome = true ∧
          route.boarding_lng.isSome = true ∧
          ((truthyNum route.destination_lat &&
              truthyNum route.destination_lng) = true →
            route.destination_name.isSome = true)))) ∧
    (∀ (rd : RouteData) (route : Route), rd.route = some route →
       ¬(route.origin_lat.isSome = true ∧
         route.origin_lng.isSome = true ∧
         route.boarding_lat.isSome = true ∧
         route.boarding_lng.isSome = true ∧
         ((truthyNum route.destination_lat &&
             truthyNum route.destination_lng) = true →
           route.destination_name.isSome = true)) →
       display_route_map (some rd) = .error) := by
  refine ⟨?_, ?_, ?_⟩
  · intro rd route hr
    refine ⟨{ walking_distance_km := route.walking_distance_km.getD 0,
              walking_time_min := route.walking_time_min.getD 0,
              estimated_time_min := route.estimated_time_min.getD 0,
              estimated_fare := route.estimated_fare.getD "0.00",
              steps :=
                if truthyList route.walking_instructions then
                  .provided (route.walking_instructions.getD [])
                else
                  .defaults (route.boarding_stop_name.getD "Parada recomendada")
                    (route.walking_distance_km.getD 0)
                    (route.walking_time_min.getD 0),
              confidence_pct := route.confidence_score.getD 0 * 100 }, ?_⟩
    simp [display_route_instructions, RouteData.truthy, hr]
  · intro rd route hr
    constructor
    · rintro ⟨layers, view, hrend⟩
      by_contra hcond
      have hnone : route_points_data route = none := by
        cases hpd : route_points_data route with
        | none => rfl
        | some pts =>
          exact absurd ((route_points_data_isSome route).mp
            (by simp [hpd])) hcond
      rw [display_route_map_eq_error rd route hr hnone] at hrend
      exact RenderResult.noConfusion hrend
    · rintro ⟨ho1, ho2, hb1, hb2, hdn⟩
      obtain ⟨pts, hpts⟩ := Option.isSome_iff_exists.mp
        ((route_points_data_isSome route).mpr ⟨ho1, ho2, hb1, hb2, hdn⟩)
      obtain ⟨olat, holat⟩ := Option.isSome_iff_exists.mp ho1
      obtain ⟨olng, holng⟩ := Option.isSome_iff_exists.mp ho2
      exact ⟨_, _, display_route_map_eq_rendered rd route pts olat olng hr
        holat holng hpts⟩
  · intro rd route hr hcond
    have hnone : route_points_data route = none := by
      cases hpd : route_points_data route with
      | none => rfl
      | some pts =>
        exact absurd ((route_points_data_isSome route).mp (by simp [hpd]))
          hcond
    exact display_route_map_eq_error rd route hr hnone

/-- Witness for C2: both renderers complete on the concrete response
`rdEx`, and the empty route object renders as an error. -/
theorem C2_default_substitution_witness :
    (∃ i, display_route_instructions (some rdEx) = .rendered i) ∧
    (∃ layers view, display_route_map (some rdEx) =
      .rendered layers view) ∧
    display_route_map (some emptyRouteData) = .error :=
  ⟨C2_default_substitution.1 rdEx routeEx rfl,
   (C2_default_substitution.2.1 rdEx routeEx rfl).mpr
     ⟨rfl, rfl, rfl, rfl, fun _ => rfl⟩,
   C2_default_substitution.2.2 emptyRouteData {} rfl (by decide)⟩

/-- Counterexample to C2 as stated: `emptyRouteData` has `route`
present, yet `display_route_map` raises (`KeyError` on
`route['origin_lng']`, `app.py` line 138) instead of degrading to a
default. -/
theorem C2_default_substitution_counterexample :
    emptyRouteData.route.isSome = true ∧
    display_route_map (some emptyRouteData) = .error := by
  refine ⟨rfl, ?_⟩
  decide

/-! ## C3 -/

/-- Claim C3, confirmed: when a destination is selected and the
route-computation call fails (non-200 status or a network exception),
the "Calcular Ruta Óptima" handler surfaces an error message and leaves
the whole session state unchanged — `selected_destination` keeps its
value, `route_data` is not written, `show_results` is not set. -/
theorem C3_failure_preserves_state (s : SessionState) (d : Destination)
    (hd : s.selected_destination = some d) :
    (∀ (status : Nat) (body : RouteData), status ≠ 200 →
       (main_calculate_route_click (.resp status body) s).1 = s ∧
       (main_calculate_route_click (.resp status body) s).2 ≠ []) ∧
    (∀ m : String,
       (main_calculate_route_click (.exn m) s).1 = s ∧
       (main_calculate_route_click (.exn m) s).2 ≠ []) := by
  constructor
  · intro status body hstatus
    simp [main_calculate_route_click, calculate_route, hd, hstatus]
  · intro m
    simp [main_calculate_route_click, calculate_route, hd]

/-- Witness for C3: a 500 response and a network exception on a concrete
selected state. -/
theorem C3_failure_preserves_state_witness :
    ((main_calculate_route_click (.resp 500 rdEx)
        ⟨some destEx, none, false⟩).1 = ⟨some destEx, none, false⟩ ∧
     (main_calculate_route_click (.resp 500 rdEx)
        ⟨some destEx, none, false⟩).2 ≠ []) ∧
    ((main_calculate_route_click (.exn "timeout")
        ⟨some destEx, none, false⟩).1 = ⟨some destEx, none, false⟩ ∧
     (main_calculate_route_click (.exn "timeout")
        ⟨some destEx, none, false⟩).2 ≠ []) :=
  ⟨(C3_failure_preserves_state ⟨some destEx, none, false⟩ destEx rfl).1
      500 rdEx (by decide),
   (C3_failure_preserves_state ⟨some destEx, none, false⟩ destEx rfl).2
      "timeout"⟩

/-! ## C4 -/

/-- Claim C4, confirmed: `download_report` returns `(None, None)` on a
network exception, on any non-200 status, and whenever `success` is not
`true` (false or absent); the `try/except` wrapper means no exception
ever propagates (the model is a total function into pairs).  On a 200
response with `success` truthy, a decodable base64 payload and a
filename, it returns the decoded bytes and the filename. -/
theorem C4_download_report (m : String) (status : Nat)
    (body bodyOk : ReportResponse) (b64 fn : String) (bytes : List Nat)
    (hs : status ≠ 200 ∨ body.success ≠ some true)
    (hok : bodyOk.success = some true)
    (hb64 : bodyOk.pdf_base64 = some b64)
    (hdec : b64decode b64 = some bytes)
    (hfn : bodyOk.filename = some fn) :
    download_report (.exn m) = (none, none) ∧
    download_report (.resp status body) = (none, none) ∧
    download_report (.resp 200 bodyOk) = (some bytes, some fn) := by
  refine ⟨rfl, ?_, ?_⟩
  · rcases hs with hs | hs
    · simp [download_report, hs]
    · have : body.success.getD false = false := by
        cases hsucc : body.success with
        | none => rfl
        | some b =>
          cases b with
          | false => rfl
          | true => exact absurd hsucc hs
      simp [download_report, this]
  · simp [download_report, hok, hb64, hdec, hfn]

/-- Witness for C4: a `success: false` body yields `(None, None)` and a
valid payload decodes to the bytes of "hello". -/
theorem C4_download_report_witness :
    download_report (.exn "refused") = (none, none) ∧
    download_report (.resp 200 { success := some false }) = (none, none) ∧
    download_report
        (.resp 200 { success := some true, pdf_base64 := some "aGVsbG8=",
                     filename := some "reporte.pdf" }) =
      (some [104, 101, 108, 108, 111], some "reporte.pdf") :=
  C4_download_report "refused" 200 { success := some false }
    { success := some true, pdf_base64 := some "aGVsbG8=",
      filename := some "reporte.pdf" }
    "aGVsbG8=" "reporte.pdf" [104, 101, 108, 108, 111]
    (Or.inr (by decide)) rfl rfl (by decide) rfl

/-! ## C5 -/

/-- Claim C5, confirmed: `display_route_map` emits the walking path
layer iff `walking_route_coordinates` is present and non-empty (truthy)
and the bus path layer iff `bus_route_coordinates` is present and
non-empty; with both lists empty it emits the point layer only. -/
theorem C5_path_layers (rd : RouteData) (route : Route)
    (pts : List PointDatum) (olat olng : ℚ)
    (hr : rd.route = some route)
    (h1 : route.origin_lat = some olat) (h2 : route.origin_lng = some olng)
    (hpts : route_points_data route = some pts) :
    display_route_map (some rd) =
      .rendered
        ((if truthyList route.walking_route_coordinates then
            [Layer.path
              [⟨route.walking_route_coordinates.getD [], [255, 165, 0, 160],
                "Ruta a pie hacia la parada"⟩] 8 true]
          else []) ++
         (if truthyList route.bus_route_coordinates then
            [Layer.path
              [⟨route.bus_route_coordinates.getD [], [75, 0, 130, 160],
                "Ruta del transporte"⟩] 6 true]
          else []) ++
         [Layer.scatter pts 200 true])
        ⟨olat, olng, 14, 0⟩ ∧
    (route.walking_route_coordinates = some [] →
     route.bus_route_coordinates = some [] →
     display_route_map (some rd) =
       .rendered [Layer.scatter pts 200 true] ⟨olat, olng, 14, 0⟩) := by
  constructor
  · exact display_route_map_eq_rendered rd route pts olat olng hr h1 h2 hpts
  · intro hw hb
    have h := display_route_map_eq_rendered rd route pts olat olng hr h1 h2 hpts
    rwa [walking_line_layers, bus_line_layers, hw, hb] at h

/-- Witness for C5: the fully-populated response emits both path layers;
the response with two empty coordinate lists emits the point layer
only. -/
theorem C5_path_layers_witness :
    display_route_map (some rdEx) =
      .rendered
        ((if truthyList routeEx.walking_route_coordinates then
            [Layer.path
              [⟨routeEx.walking_route_coordinates.getD [], [255, 165, 0, 160],
                "Ruta a pie hacia la parada"⟩] 8 true]
          else []) ++
         (if truthyList routeEx.bus_route_coordinates then
            [Layer.path
              [⟨routeEx.bus_route_coordinates.getD [], [75, 0, 130, 160],
                "Ruta del transporte"⟩] 6 true]
          else []) ++
         [Layer.scatter
           [⟨"Tu ubicación", (-79, -8), [255, 0, 0, 160]⟩,
            ⟨"Parada: Av. España", (-78, -7), [0, 0, 255, 160]⟩,
            ⟨"Destino: Mall Aventura Plaza", (-77, -6), [0, 255, 0, 160]⟩]
           200 true])
        ⟨-8, -79, 14, 0⟩ ∧
    display_route_map (some rdNoPaths) =
      .rendered
        [Layer.scatter
          [⟨"Tu ubicación", (-79, -8), [255, 0, 0, 160]⟩,
           ⟨"Parada: Av. España", (-78, -7), [0, 0, 255, 160]⟩,
           ⟨"Destino: Mall Aventura Plaza", (-77, -6), [0, 255, 0, 160]⟩]
          200 true]
        ⟨-8, -79, 14, 0⟩ :=
  ⟨(C5_path_layers rdEx routeEx _ (-8) (-79) rfl rfl rfl (by decide)).1,
   (C5_path_layers rdNoPaths routeNoPaths _ (-8) (-79) rfl rfl rfl
      (by decide)).2 rfl rfl⟩

/-! ## C6 -/

/-- Claim C6, confirmed: in the layer list produced by
`display_route_map` every path layer precedes the point layer and the
point layer is the last element. -/
theorem C6_layer_order (rd : RouteData) (route : Route)
    (pts : List PointDatum) (olat olng : ℚ)
    (hr : rd.route = some route)
    (h1 : route.origin_lat = some olat) (h2 : route.origin_lng = some olng)
    (hpts : route_points_data route = some pts) :
    ∃ paths view,
      display_route_map (some rd) =
        .rendered (paths ++ [Layer.scatter pts 200 true]) view ∧
      paths.all Layer.isPath = true ∧
      (paths ++ [Layer.scatter pts 200 true]).getLast? =
        some (Layer.scatter pts 200 true) := by
  refine ⟨walking_line_layers route ++ bus_line_layers route, ⟨olat, olng, 14, 0⟩,
    ?_, ?_, ?_⟩
  · exact display_route_map_eq_rendered rd route pts olat olng hr h1 h2 hpts
  · rw [walking_line_layers, bus_line_layers]
    rcases truthyList route.walking_route_coordinates <;>
      rcases truthyList route.bus_route_coordinates <;>
        simp [Layer.isPath]
  · simp [List.getLast?_concat]

/-- Witness for C6 at the fully-populated concrete response. -/
theorem C6_layer_order_witness :
    ∃ paths view,
      display_route_map (some rdEx) =
        .rendered (paths ++
          [Layer.scatter
            [⟨"Tu ubicación", (-79, -8), [255, 0, 0, 160]⟩,
             ⟨"Parada: Av. España", (-78, -7), [0, 0, 255, 160]⟩,
             ⟨"Destino: Mall Aventura Plaza", (-77, -6), [0, 255, 0, 160]⟩]
            200 true]) view ∧
      paths.all Layer.isPath = true ∧
      (paths ++
        [Layer.scatter
          [⟨"Tu ubicación", (-79, -8), [255, 0, 0, 160]⟩,
           ⟨"Parada: Av. España", (-78, -7), [0, 0, 255, 160]⟩,
           ⟨"Destino: Mall Aventura Plaza", (-77, -6), [0, 255, 0, 160]⟩]
          200 true]).getLast? =
        some (Layer.scatter
          [⟨"Tu ubicación", (-79, -8), [255, 0, 0, 160]⟩,
           ⟨"Parada: Av. España", (-78, -7), [0, 0, 255, 160]⟩,
           ⟨"Destino: Mall Aventura Plaza", (-77, -6), [0, 255, 0, 160]⟩]
          200 true) :=
  C6_layer_order rdEx routeEx _ (-8) (-79) rfl rfl rfl (by decide)

/-! ## C7 -/

/-- Claim C7, confirmed: `display_route_map` is modelled as a pure
function of the response alone (the source reads no other state while
building layers and view), so byte-identical input yields an identical
layer list and view anchor. -/
theorem C7_deterministic (a b : Option RouteData) (h : a = b) :
    display_route_map a = display_route_map b :=
  congrArg display_route_map h

/-- Witness for C7 at the concrete response. -/
theorem C7_deterministic_witness :
    display_route_map (some rdEx) = display_route_map (some rdEx) :=
  C7_deterministic (some rdEx) (some rdEx) rfl

/-! ## C8 -/

/-- Claim C8, confirmed: the "Calcular Nueva Ruta" handler, applied to
any state, yields the initial (Idle) state: `show_results` is false,
`route_data` is cleared and `selected_destination` is cleared. -/
theorem C8_reset_clears_state (s : SessionState) :
    main_reset_click s = initialSessionState ∧
    (main_reset_click s).show_results = false ∧
    (main_reset_click s).route_data = none ∧
    (main_reset_click s).selected_destination = none :=
  ⟨rfl, rfl, rfl, rfl⟩

/-! ## C9 -/

/-- Claim C9, corrected: `search_destinations` returns `[]` without
calling the search service for a `None` query or any query shorter than
3 characters, but the `/search` endpoint is called exactly when the
query's whitespace-stripped length is at least 3 — a query of 3 or more
raw characters whose stripped form is shorter is still rejected. -/
theorem C9_search_gate :
    (∀ svc : HttpResult (List Destination),
       search_destinations svc none = ⟨[], false, []⟩) ∧
    (∀ (svc : HttpResult (List Destination)) (q : String), q.length < 3 →
       search_destinations svc (some q) = ⟨[], false, []⟩) ∧
    (∀ (svc : HttpResult (List Destination)) (q : String),
       (search_destinations svc (some q)).called = true ↔
         3 ≤ (pyStrip q).length) := by
  refine ⟨fun svc => rfl, ?_, ?_⟩
  · intro svc q hq
    have hlt : (pyStrip q).length < 3 :=
      lt_of_le_of_lt (pyStrip_length_le q) hq
    simp [search_destinations, hlt]
  · intro svc q
    constructor
    · intro hc
      by_contra hlen
      push_neg at hlen
      simp [search_destinations, hlen] at hc
    · intro hlen
      have hq : ¬(q = "") := by
        intro h
        rw [h] at hlen
        exact absurd hlen (by decide)
      have hnlt : ¬((pyStrip q).length < 3) := by omega
      cases svc with
      | resp status body =>
        by_cases hs : status = 200 <;>
          simp [search_destinations, hq, hnlt, hs]
      | exn m => simp [search_destinations, hq, hnlt]

/-- Witness for C9: a 2-character query is rejected without a call, and
"Mall" (stripped length 4) triggers the call. -/
theorem C9_search_gate_witness :
    search_destinations (.resp 200 [destEx]) (some "ab") = ⟨[], false, []⟩ ∧
    (search_destinations (.resp 200 [destEx]) (some "Mall")).called = true :=
  ⟨C9_search_gate.2.1 (.resp 200 [destEx]) "ab" (by decide),
   (C9_search_gate.2.2 (.resp 200 [destEx]) "Mall").mpr (by decide)⟩

/-- Counterexample to C9 as stated: the query "ab " has 3 characters,
yet `search_destinations` returns `[]` without calling the `/search`
endpoint, because the length check is applied to the stripped query
(`app.py` line 88). -/
theorem C9_search_gate_counterexample :
    3 ≤ ("ab " : String).length ∧
    search_destinations (.resp 200 [destEx]) (some "ab ") =
      ⟨[], false, []⟩ := by
  refine ⟨by decide, by decide⟩

/-! ## C10 -/

/-- Claim C10, confirmed: selecting a destination while a computed route
is displayed overwrites `selected_destination` and leaves `route_data`
and `show_results` unchanged, so the previous route stays stored and
visible. -/
theorem C10_select_preserves_route (d : Destination) (s : SessionState)
    (rd : RouteData) (hs : s.show_results = true)
    (hr : s.route_data = some rd) :
    (main_select_destination_click d s).selected_destination = some d ∧
    (main_select_destination_click d s).route_data = some rd ∧
    (main_select_destination_click d s).show_results = true := by
  refine ⟨rfl, ?_, ?_⟩ <;> simp [main_select_destination_click, hr, hs]

/-- A second example destination, used to overwrite a selection. -/
def dest2Ex : Destination :=
  { id := 2, name := "Hospital Regional" }

/-- Witness for C10: overwriting the selection in a concrete RouteReady
state. -/
theorem C10_select_preserves_route_witness :
    (main_select_destination_click dest2Ex
        ⟨some destEx, some rdEx, true⟩).selected_destination = some dest2Ex ∧
    (main_select_destination_click dest2Ex
        ⟨some destEx, some rdEx, true⟩).route_data = some rdEx ∧
    (main_select_destination_click dest2Ex
        ⟨some destEx, some rdEx, true⟩).show_results = true :=
  C10_select_preserves_route dest2Ex ⟨some destEx, some rdEx, true⟩ rdEx
    rfl rfl
